import Mathlib

/-!
Shallow embedding of the yabridge core excerpt:
`src/wine-host/utils.h` (PluginContext event loop, Win32Thread, Win32Timer) and
`src/common/serialization/vst3/component-handler/unit-handler-2.h`
(YaUnitHandler2 capability arguments).  All times are integer milliseconds.
-/

/-- Event loop delay from utils.h lines 37-38:
`std::chrono::milliseconds(1000) / 30`, computed with integer millisecond
arithmetic (chrono duration division truncates). -/
def event_loop_interval : Nat := 1000 / 30

/-- The `events_timer` member of `PluginContext` (a boost asio steady timer),
reduced to the one piece of state the excerpt uses: its expiry time. -/
structure EventsTimer where
  expiry : Nat
deriving DecidableEq, Repr

/-- Steady timer `expires_at`: replace the expiry time of the timer. -/
def EventsTimer.expires_at (_t : EventsTimer) (e : Nat) : EventsTimer := ⟨e⟩

/-- Retiming step of `PluginContext::async_handle_events`, utils.h lines 79-81:
`events_timer.expires_at(std::max(events_timer.expiry() + event_loop_interval,
std::chrono::steady_clock::now() + std::chrono::milliseconds(5)))`. -/
def async_handle_events_retime (events_timer : EventsTimer) (now : Nat) : EventsTimer :=
  events_timer.expires_at (max (events_timer.expiry + event_loop_interval) (now + 5))

/-- Expiry time of the n-th tick when `async_handle_events` self-reschedules.
Here `d n` is the delay between the n-th expiry and the moment the asynchronous
wait actually completes, and `h n` is the duration of the n-th handler
invocation; the recursive `async_handle_events` call therefore runs at time
`scheduleExpiry e0 d h n + d n + h n`, which is the `now` of the next retiming. -/
def scheduleExpiry (e0 : Nat) (d h : Nat → Nat) : Nat → Nat
  | 0 => e0
  | n + 1 =>
      (async_handle_events_retime ⟨scheduleExpiry e0 d h n⟩
        (scheduleExpiry e0 d h n + d n + h n)).expiry

/-- Moment the n-th tick actually fires, i.e. the wait completes: its scheduled
expiry plus the completion delay. -/
def fireTime (e0 : Nat) (d h : Nat → Nat) (n : Nat) : Nat :=
  scheduleExpiry e0 d h n + d n

/-- Observable atomic steps of the timer-completion lambda registered by
`PluginContext::async_handle_events`, utils.h lines 82-93. -/
inductive TickAction where
  | setActive : Bool → TickAction
  | runHandler : TickAction
  | reschedule : TickAction
deriving DecidableEq, Repr

/-- Body of the timer-completion lambda, utils.h lines 83-93: when the wait
completed with a failed error code it returns immediately; otherwise it sets
`event_loop_active` to true, runs the handler, sets `event_loop_active` back to
false, and only then re-enters `async_handle_events` to enqueue the next tick. -/
def tick_callback (error_failed : Bool) : List TickAction :=
  if error_failed then []
  else [TickAction.setActive true, TickAction.runHandler, TickAction.setActive false, TickAction.reschedule]

/-- Trace of n consecutive successful ticks.  `PluginContext::run` is documented
(utils.h lines 54-58) to be called from a single thread, so the io context runs
the completion lambdas strictly one after the other and the overall trace is
their concatenation: tick k occupies positions 4k to 4k+3. -/
def ticksTrace : Nat → List TickAction
  | 0 => []
  | n + 1 => tick_callback false ++ ticksTrace n

/-- Effect of one atomic step on the `event_loop_active` flag (utils.h line 101). -/
def applyFlag (fl : Bool) : TickAction → Bool
  | TickAction.setActive b => b
  | TickAction.runHandler => fl
  | TickAction.reschedule => fl

/-- Value of `event_loop_active` after executing a list of steps. -/
def flagAfter (init : Bool) (l : List TickAction) : Bool := l.foldl applyFlag init

/-- Value of `event_loop_active` in the state in which step i of the n-tick
trace executes (equivalently, after the first i steps have executed). -/
def flagAt (n i : Nat) : Bool := flagAfter false ((ticksTrace n).take i)

/-- YaUnitHandler2 construction arguments, unit-handler-2.h lines 36-54: one
boolean `supported` flag recording the capability probe result. -/
structure ConstructArgs where
  supported : Bool
deriving DecidableEq, Repr

/-- Bitsery `value1b` applied to a bool writes it as exactly one byte. -/
def boolByte (b : Bool) : Nat := if b then 1 else 0

/-- The serialize template of ConstructArgs (unit-handler-2.h lines 50-53) run
against an output adapter: the single statement `s.value1b(supported)` appends
one byte holding the boolean. -/
def ConstructArgs.serialize (a : ConstructArgs) : List Nat := [boolByte a.supported]

/-- The same serialize template run against an input adapter: `value1b` reads
exactly one byte back into `supported`; any other stream shape is a failure. -/
def ConstructArgs.deserialize : List Nat → Option ConstructArgs
  | [b] => if b ≤ 1 then some ⟨b == 1⟩ else none
  | _ => none

/-- An opaque real component, reduced to the one observable the excerpt probes:
whether it implements the optional IUnitHandler2 extension interface. -/
structure RealComponent where
  implementsIUnitHandler2 : Bool
deriving DecidableEq, Repr

/-- Modelled from the spec: the probing constructor
`ConstructArgs(Steinberg::IPtr<Steinberg::FUnknown> object)` is declared at
unit-handler-2.h line 43 but its body is not under src/; per the spec it checks
whether the existing implementation implements IUnitHandler2 and records the
result in `supported`. -/
def ConstructArgs.ofObject (c : RealComponent) : ConstructArgs :=
  ⟨c.implementsIUnitHandler2⟩

/-- YaUnitHandler2 stores its construction arguments, unit-handler-2.h line 67. -/
structure YaUnitHandler2 where
  arguments : ConstructArgs
deriving DecidableEq, Repr

/-- Inline accessor from unit-handler-2.h line 62: `return arguments.supported`. -/
def YaUnitHandler2.supported (y : YaUnitHandler2) : Bool := y.arguments.supported

/-- Outcome of a mirrored operation invoked on the proxy. -/
inductive MirrorOutcome where
  | remoteResult : MirrorOutcome
  | unsupportedInterface : MirrorOutcome
deriving DecidableEq, Repr

/-- Modelled from the spec: the mirrored `notifyUnitByBusChange` of the proxy
built on a YaUnitHandler2 (the Vst3UnitHandler2Proxy implementation is not under
src/).  Per the spec, when the capability probe reported no support the call
reports UnsupportedInterface and performs no transport round-trip; otherwise it
performs exactly one round-trip and returns what the remote component returned.
The second component counts the transport round-trips issued by the call. -/
def YaUnitHandler2.notifyUnitByBusChange (y : YaUnitHandler2) : MirrorOutcome × Nat :=
  if y.supported then (MirrorOutcome.remoteResult, 1)
  else (MirrorOutcome.unsupportedInterface, 0)

/-- Identity on the modelled value domain: `decay_copy` from utils.h lines
134-137 returns a by-value copy of its argument. -/
def decay_copy (v : Nat) : Nat := v

/-- The heap-allocated closure built by the Win32Thread constructor, utils.h
lines 181-184: `new std::function<void()>([&, f = std::move(f)]() {
std::invoke(f, decay_copy(std::forward<Args>(args))...); })`.  The entry
function f is captured by move, hence stored by value inside the closure.  The
argument pack is captured by reference through the default capture, so the
closure stores a reference to the constructor argument; we model the referenced
variable as the time-indexed valuation `argRef` (time 0 is construction time). -/
structure Win32ThreadClosure where
  f : Nat → Nat
  argRef : Nat → Nat

/-- Invoking the closure at time t (the trampoline runs it on the new thread):
`decay_copy` sits inside the lambda body, so the argument is read through the
captured reference at invocation time t, not at construction time. -/
def Win32ThreadClosure.invoke (c : Win32ThreadClosure) (t : Nat) : Nat :=
  c.f (decay_copy (c.argRef t))

/-- Ownership state of a Win32Thread, utils.h lines 155-202: the unique pointer
holding the native thread handle, or none in the default-constructed state. -/
structure Win32Thread where
  handle : Option Nat
deriving DecidableEq, Repr

/-- Modelled from the spec: the move operations declared at utils.h lines
192-193 (bodies not under src/) transfer the unique pointer holding the handle;
the result is (destination, source after the move). -/
def Win32Thread.moveFrom (t : Win32Thread) : Win32Thread × Win32Thread :=
  (⟨t.handle⟩, ⟨none⟩)

/-- Destructor of Win32Thread: the unique pointer runs `CloseHandle` on the
owned handle if there is one.  The result lists the handles released. -/
def Win32Thread.destroy (t : Win32Thread) : List Nat :=
  match t.handle with
  | some h => [h]
  | none => []

/-- Ownership state of a Win32Timer, utils.h lines 208-222: the associated
window handle and the optional timer id; a moved-from instance holds none. -/
structure Win32Timer where
  window_handle : Nat
  timer_id : Option Nat
deriving DecidableEq, Repr

/-- Modelled from the spec: the move operations declared at utils.h lines
216-217 (bodies not under src/) transfer the optional timer id. -/
def Win32Timer.moveFrom (t : Win32Timer) : Win32Timer × Win32Timer :=
  (⟨t.window_handle, t.timer_id⟩, ⟨t.window_handle, none⟩)

/-- Modelled from the spec: the destructor declared at utils.h line 211 (body
not under src/) disarms the timer via `KillTimer` iff the id is still owned.
The result lists the (window handle, timer id) pairs disarmed. -/
def Win32Timer.destroy (t : Win32Timer) : List (Nat × Nat) :=
  match t.timer_id with
  | some i => [(t.window_handle, i)]
  | none => []

/-- Reactor events observable around `PluginContext::stop`: a tick handler
starting, a tick handler returning, and a call to `stop`. -/
inductive Ev where
  | start : Ev
  | finish : Ev
  | stopCall : Ev
deriving DecidableEq, Repr

/-- Reactor state: whether `stop` has been called on the io context and whether
a tick handler is currently in flight. -/
structure RState where
  stopped : Bool
  inFlight : Bool
deriving DecidableEq, Repr

/-- Modelled from the spec: `PluginContext::stop` (declared utils.h lines 60-64,
body not under src/) drops all future work from the io context but does not make
the thread inside `run` return immediately.  A tick may start only if the
context is not stopped and no tick is in flight (the io context is run from one
thread); a tick already in flight may still finish after `stop`; `stop` itself
is always permitted. -/
def stepEv (s : RState) : Ev → Option RState
  | Ev.start =>
      if s.stopped || s.inFlight then none else some ⟨s.stopped, true⟩
  | Ev.finish =>
      if s.inFlight then some ⟨s.stopped, false⟩ else none
  | Ev.stopCall => some ⟨true, s.inFlight⟩

/-- A list of events is a valid reactor history from state s when every event is
permitted by `stepEv` in sequence. -/
def validFrom (s : RState) : List Ev → Bool
  | [] => true
  | e :: es =>
      match stepEv s e with
      | some s2 => validFrom s2 es
      | none => false

/-- Initial reactor state: not stopped, no tick in flight. -/
def initRState : RState := ⟨false, false⟩

/-! Helper lemmas shared between the claim theorems. -/

/-- Unfolding the one-step schedule recurrence. -/
theorem scheduleExpiry_succ (e0 : Nat) (d h : Nat → Nat) (n : Nat) :
    scheduleExpiry e0 d h (n + 1)
      = max (scheduleExpiry e0 d h n + event_loop_interval)
            (scheduleExpiry e0 d h n + d n + h n + 5) := rfl

/-- The event loop interval evaluates to 33 ms. -/
theorem event_loop_interval_eq : event_loop_interval = 33 := rfl

/-- The flag after executing two concatenated step lists. -/
theorem flagAfter_append (a : Bool) (l1 l2 : List TickAction) :
    flagAfter a (l1 ++ l2) = flagAfter (flagAfter a l1) l2 := by
  simp [flagAfter, List.foldl_append]

/-- The successful tick body written out as a cons chain. -/
theorem ticksTrace_succ (n : Nat) :
    ticksTrace (n + 1)
      = TickAction.setActive true :: TickAction.runHandler :: TickAction.setActive false ::
        TickAction.reschedule :: ticksTrace n := by
  simp [ticksTrace, tick_callback]

/-- Length of the n-tick trace. -/
theorem ticksTrace_length (n : Nat) : (ticksTrace n).length = 4 * n := by
  induction n with
  | zero => rfl
  | succ n ih => simp [ticksTrace_succ, ih]; omega

/-- Step j of tick k of the trace equals step j of the tick body. -/
theorem ticksTrace_getElem (n k j : Nat) (hk : k < n) (hj : j < 4) :
    (ticksTrace n)[4 * k + j]? = (tick_callback false)[j]? := by
  induction n generalizing k with
  | zero => omega
  | succ n ih =>
    cases k with
    | zero =>
      have hlt : 4 * 0 + j < (tick_callback false).length := by
        simp [tick_callback]; omega
      have : ticksTrace (n + 1) = tick_callback false ++ ticksTrace n := rfl
      rw [this, List.getElem?_append, if_pos hlt]
      simp
    | succ k =>
      have hlen : (tick_callback false).length = 4 := rfl
      have hge : (tick_callback false).length ≤ 4 * (k + 1) + j := by rw [hlen]; omega
      have : ticksTrace (n + 1) = tick_callback false ++ ticksTrace n := rfl
      rw [this, List.getElem?_append_right hge, hlen]
      have hidx : 4 * (k + 1) + j - 4 = 4 * k + j := by omega
      rw [hidx]
      exact ih k (by omega)

/-- Characterisation of the `event_loop_active` flag along the trace: the flag
is true exactly at the two states bracketing each handler invocation. -/
theorem flagAt_eq (n i : Nat) (hi : i ≤ 4 * n) :
    flagAt n i = decide (i % 4 = 1 ∨ i % 4 = 2) := by
  induction n generalizing i with
  | zero =>
    have : i = 0 := by omega
    subst this
    decide
  | succ n ih =>
    by_cases h4 : i ≤ 4
    · interval_cases i <;> simp [flagAt, ticksTrace_succ, flagAfter, applyFlag]
    · obtain ⟨j, rfl⟩ : ∃ j, i = 4 + j := ⟨i - 4, by omega⟩
      have hj : j ≤ 4 * n := by omega
      have htake : (ticksTrace (n + 1)).take (4 + j)
          = tick_callback false ++ (ticksTrace n).take j := by
        have : ticksTrace (n + 1) = tick_callback false ++ ticksTrace n := rfl
        rw [this]
        have hlen : (tick_callback false).length = 4 := rfl
        rw [show 4 + j = (tick_callback false).length + j by rw [hlen], List.take_append]
      have hmod : (4 + j) % 4 = j % 4 := by omega
      rw [flagAt, htake, flagAfter_append, hmod]
      have hbody : flagAfter false (tick_callback false) = false := rfl
      rw [hbody]
      exact ih j hj

/-- Claim C1: along any trace of n successful ticks, tick k (positions 4k..4k+3)
consists of setting `event_loop_active` to true, running the handler, setting
the flag back to false, and only then enqueueing the next tick, so the flag is
set to true immediately before the handler and to false immediately after it
returns, the false transition precedes the reschedule, and the flag is true
exactly at the states spanning a handler invocation (i mod 4 equal to 1 or 2)
and false at all other states; ticks occupy disjoint consecutive segments of the
sequential trace, so no two ticks execute concurrently. -/
theorem C1_event_loop_active_discipline (n k i : Nat) (hk : k < n) (hi : i ≤ 4 * n) :
    (ticksTrace n)[4 * k]? = some (TickAction.setActive true)
  ∧ (ticksTrace n)[4 * k + 1]? = some TickAction.runHandler
  ∧ (ticksTrace n)[4 * k + 2]? = some (TickAction.setActive false)
  ∧ (ticksTrace n)[4 * k + 3]? = some TickAction.reschedule
  ∧ flagAt n i = decide (i % 4 = 1 ∨ i % 4 = 2) := by
  refine ⟨?_, ?_, ?_, ?_, flagAt_eq n i hi⟩
  · have := ticksTrace_getElem n k 0 hk (by omega)
    simpa using this
  · exact ticksTrace_getElem n k 1 hk (by omega)
  · exact ticksTrace_getElem n k 2 hk (by omega)
  · exact ticksTrace_getElem n k 3 hk (by omega)

/-- Witness for C1 at n = 2, k = 1, i = 5. -/
theorem C1_event_loop_active_discipline_witness :
    1 < 2 ∧ 5 ≤ 4 * 2
  ∧ ((ticksTrace 2)[4 * 1]? = some (TickAction.setActive true)
     ∧ (ticksTrace 2)[4 * 1 + 1]? = some TickAction.runHandler
     ∧ (ticksTrace 2)[4 * 1 + 2]? = some (TickAction.setActive false)
     ∧ (ticksTrace 2)[4 * 1 + 3]? = some TickAction.reschedule
     ∧ flagAt 2 5 = decide (5 % 4 = 1 ∨ 5 % 4 = 2)) :=
  ⟨by decide, by decide, C1_event_loop_active_discipline 2 1 5 (by decide) (by decide)⟩

/-- Claim C2: each call to `async_handle_events` moves the expiry of the events
timer to the maximum of the previous expiry plus the fixed event loop interval
and the current time plus the 5 ms minimum gap. -/
theorem C2_retime_is_max_of_cadence_and_gap (events_timer : EventsTimer) (now : Nat) :
    (async_handle_events_retime events_timer now).expiry
      = max (events_timer.expiry + event_loop_interval) (now + 5) := rfl

/-- Claim C3: along any self-rescheduled sequence of ticks, with arbitrary wait
completion delays d and handler durations h (in particular handler invocations
longer than the nominal interval), two consecutive scheduled expiry times are
never closer than 5 ms, and neither are two consecutive actual firing times. -/
theorem C3_minimum_gap_between_ticks (e0 : Nat) (d h : Nat → Nat) (n : Nat) :
    scheduleExpiry e0 d h n + 5 ≤ scheduleExpiry e0 d h (n + 1)
  ∧ fireTime e0 d h n + 5 ≤ fireTime e0 d h (n + 1) := by
  have hs := scheduleExpiry_succ e0 d h n
  have h1 := Nat.le_max_left (scheduleExpiry e0 d h n + event_loop_interval)
    (scheduleExpiry e0 d h n + d n + h n + 5)
  have h2 := Nat.le_max_right (scheduleExpiry e0 d h n + event_loop_interval)
    (scheduleExpiry e0 d h n + d n + h n + 5)
  have hi : event_loop_interval = 33 := event_loop_interval_eq
  have hf1 : fireTime e0 d h n = scheduleExpiry e0 d h n + d n := rfl
  have hf2 : fireTime e0 d h (n + 1) = scheduleExpiry e0 d h (n + 1) + d (n + 1) := rfl
  omega

/-- Claim C9: the fixed event loop interval is 1000 ms divided by 30, which is
33 ms under integer millisecond arithmetic, and with instantaneous handlers
(zero completion delay, zero handler duration) consecutive scheduled ticks are
exactly 33 ms apart, hence at least 33 ms apart. -/
theorem C9_interval_constant_and_nominal_cadence (e0 n : Nat) :
    event_loop_interval = 1000 / 30
  ∧ event_loop_interval = 33
  ∧ scheduleExpiry e0 (fun _ => 0) (fun _ => 0) (n + 1)
      = scheduleExpiry e0 (fun _ => 0) (fun _ => 0) n + 33
  ∧ scheduleExpiry e0 (fun _ => 0) (fun _ => 0) n + 33
      ≤ scheduleExpiry e0 (fun _ => 0) (fun _ => 0) (n + 1) := by
  refine ⟨rfl, rfl, ?_, ?_⟩ <;>
    rw [scheduleExpiry_succ, event_loop_interval_eq] <;> omega

/-- Claim C5: serializing a ConstructArgs value writes the `supported` boolean
as exactly one byte, and deserializing the serialized form yields back the exact
same value. -/
theorem C5_serialize_one_byte_roundtrip (a : ConstructArgs) :
    (ConstructArgs.serialize a).length = 1
  ∧ ConstructArgs.deserialize (ConstructArgs.serialize a) = some a := by
  obtain ⟨b⟩ := a
  cases b <;> exact ⟨rfl, rfl⟩

/-- Claim C10: when the asynchronous wait completes with a failed error code the
timer-completion lambda returns at once: the handler is not invoked, the
`event_loop_active` flag is never written (in particular never set to true), and
no further tick is rescheduled, so the self-rescheduling chain terminates. -/
theorem C10_error_short_circuits_tick :
    tick_callback true = []
  ∧ (∀ b : Bool, flagAfter b (tick_callback true) = b)
  ∧ TickAction.runHandler ∉ tick_callback true
  ∧ TickAction.setActive true ∉ tick_callback true
  ∧ TickAction.reschedule ∉ tick_callback true := by
  refine ⟨rfl, ?_, by decide, by decide, by decide⟩
  intro b
  rfl

/-- Claim C4: for a real component that does not implement IUnitHandler2, the
capability probe records `supported = false`, the handler built from it reports
`supported() = false`, and the mirrored operation on the resulting proxy reports
UnsupportedInterface while issuing zero transport round-trips. -/
theorem C4_unsupported_interface_fails_fast (c : RealComponent)
    (hc : c.implementsIUnitHandler2 = false) :
    (ConstructArgs.ofObject c).supported = false
  ∧ (YaUnitHandler2.mk (ConstructArgs.ofObject c)).supported = false
  ∧ (YaUnitHandler2.mk (ConstructArgs.ofObject c)).notifyUnitByBusChange
      = (MirrorOutcome.unsupportedInterface, 0) := by
  refine ⟨hc, hc, ?_⟩
  simp [YaUnitHandler2.notifyUnitByBusChange, YaUnitHandler2.supported,
    ConstructArgs.ofObject, hc]

/-- Witness for C4 at the component that lacks the interface. -/
theorem C4_unsupported_interface_fails_fast_witness :
    (RealComponent.mk false).implementsIUnitHandler2 = false
  ∧ ((ConstructArgs.ofObject (RealComponent.mk false)).supported = false
     ∧ (YaUnitHandler2.mk (ConstructArgs.ofObject (RealComponent.mk false))).supported = false
     ∧ (YaUnitHandler2.mk (ConstructArgs.ofObject (RealComponent.mk false))).notifyUnitByBusChange
         = (MirrorOutcome.unsupportedInterface, 0)) :=
  ⟨rfl, C4_unsupported_interface_fails_fast (RealComponent.mk false) rfl⟩

/-- Claim C6, evaluated at the failing input: the Win32Thread constructor lambda
captures the argument pack by reference and applies `decay_copy` only inside the
lambda body, so invoking the closure after the referenced variable changed from
0 (its construction-time value) to 1 passes 1 to the entry function rather than
the construction-time value 0, contradicting the constructor's own documented
equivalence to `std::thread`, which decay-copies the arguments at construction
time. -/
theorem C6_argument_read_at_invocation_not_construction :
    Win32ThreadClosure.invoke ⟨fun v => v, fun t => t⟩ 1 = 1
  ∧ Win32ThreadClosure.invoke ⟨fun v => v, fun t => t⟩ 0 = 0
  ∧ (1 : Nat) ≠ 0 := by
  refine ⟨rfl, rfl, by decide⟩

/-- Claim C7: moving a Win32Thread or a Win32Timer transfers exclusive
ownership: the moved-from source owns nothing and its destruction releases or
disarms nothing, while destroying the destination releases the thread handle,
respectively disarms the timer, exactly once. -/
theorem C7_move_transfers_exclusive_ownership (t : Win32Thread) (tm : Win32Timer)
    (hnd idt : Nat) (hh : t.handle = some hnd) (hi : tm.timer_id = some idt) :
    (t.moveFrom).2.handle = none
  ∧ (t.moveFrom).2.destroy = []
  ∧ (t.moveFrom).1.destroy = [hnd]
  ∧ (t.moveFrom).2.destroy ++ (t.moveFrom).1.destroy = [hnd]
  ∧ (tm.moveFrom).2.timer_id = none
  ∧ (tm.moveFrom).2.destroy = []
  ∧ (tm.moveFrom).1.destroy = [(tm.window_handle, idt)]
  ∧ (tm.moveFrom).2.destroy ++ (tm.moveFrom).1.destroy = [(tm.window_handle, idt)] := by
  simp [Win32Thread.moveFrom, Win32Thread.destroy, Win32Timer.moveFrom,
    Win32Timer.destroy, hh, hi]

/-- Witness for C7 at a thread owning handle 7 and a timer owning id 2 on window 3. -/
theorem C7_move_transfers_exclusive_ownership_witness :
    (Win32Thread.mk (some 7)).handle = some 7
  ∧ (Win32Timer.mk 3 (some 2)).timer_id = some 2
  ∧ (((Win32Thread.mk (some 7)).moveFrom).2.handle = none
     ∧ ((Win32Thread.mk (some 7)).moveFrom).2.destroy = []
     ∧ ((Win32Thread.mk (some 7)).moveFrom).1.destroy = [7]
     ∧ ((Win32Thread.mk (some 7)).moveFrom).2.destroy
         ++ ((Win32Thread.mk (some 7)).moveFrom).1.destroy = [7]
     ∧ ((Win32Timer.mk 3 (some 2)).moveFrom).2.timer_id = none
     ∧ ((Win32Timer.mk 3 (some 2)).moveFrom).2.destroy = []
     ∧ ((Win32Timer.mk 3 (some 2)).moveFrom).1.destroy = [((Win32Timer.mk 3 (some 2)).window_handle, 2)]
     ∧ ((Win32Timer.mk 3 (some 2)).moveFrom).2.destroy
         ++ ((Win32Timer.mk 3 (some 2)).moveFrom).1.destroy
           = [((Win32Timer.mk 3 (some 2)).window_handle, 2)]) :=
  ⟨rfl, rfl, C7_move_transfers_exclusive_ownership (Win32Thread.mk (some 7))
    (Win32Timer.mk 3 (some 2)) 7 2 rfl rfl⟩

/-- Once the reactor is stopped, no valid continuation contains a tick start. -/
theorem no_start_when_stopped (es : List Ev) (s : RState) (hs : s.stopped = true)
    (hv : validFrom s es = true) : Ev.start ∉ es := by
  induction es generalizing s with
  | nil => simp
  | cons e es ih =>
    cases e with
    | start => simp [validFrom, stepEv, hs] at hv
    | finish =>
      cases hif : s.inFlight with
      | false => simp [validFrom, stepEv, hif] at hv
      | true =>
        have hv2 : validFrom ⟨s.stopped, false⟩ es = true := by
          simpa [validFrom, stepEv, hif] using hv
        have := ih ⟨s.stopped, false⟩ hs hv2
        simp [this]
    | stopCall =>
      have hv2 : validFrom ⟨true, s.inFlight⟩ es = true := by
        simpa [validFrom, stepEv] using hv
      have := ih ⟨true, s.inFlight⟩ rfl hv2
      simp [this]

/-- In a valid history, no tick start appears strictly after a stop call. -/
theorem stop_blocks_later_start (es : List Ev) (s : RState) (i j : Nat)
    (hv : validFrom s es = true) (hij : i < j) (hstop : es[i]? = some Ev.stopCall) :
    es[j]? ≠ some Ev.start := by
  induction es generalizing s i j with
  | nil => simp at hstop
  | cons e es ih =>
    obtain ⟨j1, rfl⟩ : ∃ j1, j = j1 + 1 := ⟨j - 1, by omega⟩
    cases i with
    | zero =>
      have he : e = Ev.stopCall := by simpa using hstop
      subst he
      have hv2 : validFrom ⟨true, s.inFlight⟩ es = true := by
        simpa [validFrom, stepEv] using hv
      have hmem := no_start_when_stopped es ⟨true, s.inFlight⟩ rfl hv2
      simp only [List.getElem?_cons_succ]
      intro hje
      exact hmem (List.mem_iff_getElem?.2 ⟨j1, hje⟩)
    | succ i1 =>
      cases he : stepEv s e with
      | none => simp [validFrom, he] at hv
      | some s2 =>
        have hv2 : validFrom s2 es = true := by simpa [validFrom, he] using hv
        have hstop2 : es[i1]? = some Ev.stopCall := by simpa using hstop
        simp only [List.getElem?_cons_succ]
        exact ih s2 i1 j1 hv2 (by omega) hstop2

/-- Claim C8: in any valid reactor history starting from the initial state, no
tick start event appears after a call to `stop` (all pending and future
scheduled work is cancelled), while the history in which a tick is in flight
when `stop` is called and still runs to completion afterwards is valid, so
`stop` does not force the in-flight tick, or the thread inside `run`, to end
immediately. -/
theorem C8_stop_cancels_future_not_inflight (es : List Ev) (i j : Nat)
    (hv : validFrom initRState es = true) (hij : i < j)
    (hstop : es[i]? = some Ev.stopCall) :
    es[j]? ≠ some Ev.start
  ∧ validFrom initRState [Ev.start, Ev.stopCall, Ev.finish] = true :=
  ⟨stop_blocks_later_start es initRState i j hv hij hstop, by decide⟩

/-- Witness for C8 at the history start, stop, finish with i = 1, j = 2. -/
theorem C8_stop_cancels_future_not_inflight_witness :
    validFrom initRState [Ev.start, Ev.stopCall, Ev.finish] = true
  ∧ 1 < 2
  ∧ [Ev.start, Ev.stopCall, Ev.finish][1]? = some Ev.stopCall
  ∧ ([Ev.start, Ev.stopCall, Ev.finish][2]? ≠ some Ev.start
     ∧ validFrom initRState [Ev.start, Ev.stopCall, Ev.finish] = true) :=
  ⟨by decide, by decide, by decide,
   C8_stop_cancels_future_not_inflight [Ev.start, Ev.stopCall, Ev.finish] 1 2
     (by decide) (by decide) (by decide)⟩
